import Mathlib

/-!
Shallow embedding of `src/Examples/Monocular/mono_live.cc` (the only source
file of the repository): a live monocular capture loop feeding ORB-SLAM3.

Modelling conventions:
* The C++ `float imageScale` and the `double` timestamps are modelled as ℚ
  (exact arithmetic); `std::lround` is modelled by `lround` below, rounding
  half away from zero exactly as the C library function does.
* External collaborators (OpenCV capture, waitKey, the SLAM engine) are
  modelled by an `Env` record supplying their observable answers: whether each
  backend `open` succeeds, the engine image scale, and one `CaptureEvent` per
  loop iteration (the result of `cap.read`, the clock sample taken right after
  the read, and the `waitKey` return value).  An exhausted event list models
  end-of-stream: the next `cap.read` fails.
* `main` returns the ordered trace of observable calls plus the exit code.
-/

namespace MonoLive

/-- A `cv::Mat` as far as this program observes it: dimensions and channel
count.  `cv::Mat::empty()` holds iff the matrix has no pixels. -/
structure Frame where
  width : Nat
  height : Nat
  channels : Nat
  deriving Repr, DecidableEq

/-- `frame.empty()` in OpenCV: true iff the total pixel count is zero. -/
def Frame.empty (f : Frame) : Bool :=
  f.width = 0 || f.height = 0

/-- `std::lround`: round to nearest integer, halves away from zero. -/
def lround (q : ℚ) : ℤ :=
  if 0 ≤ q then ⌊q + 1/2⌋ else -⌊-q + 1/2⌋

/-- `cv::cvtColor(frame, proc, cv::COLOR_BGR2GRAY)`: single-channel output,
dimensions preserved. -/
def cvtColorBGR2GRAY (f : Frame) : Frame :=
  { f with channels := 1 }

/-- Lines 105–109 of mono_live.cc: optional rescale.  If `imageScale != 1.0f`,
the target dimensions are `lround(dim * imageScale)` and the resize happens
only when both are positive; `cv::resize` keeps the channel count. -/
def rescale (imageScale : ℚ) (f : Frame) : Frame :=
  if imageScale ≠ 1 then
    let w : ℤ := lround (f.width * imageScale)
    let h : ℤ := lround (f.height * imageScale)
    if 0 < w ∧ 0 < h then { f with width := w.toNat, height := h.toNat }
    else f
  else f

/-- Lines 98–109: the per-frame transform applied to the captured frame before
`TrackMonocular` — optional grayscale conversion, then optional rescale. -/
def preprocess (forceGray : Bool) (imageScale : ℚ) (f : Frame) : Frame :=
  rescale imageScale (if forceGray then cvtColorBGR2GRAY f else f)

/-- Line 116–117: `int key = cv::waitKey(1) & 0xFF; if (key == 'q' || key == 27)`.
`& 0xFF` on a (possibly negative, e.g. -1) int is the value modulo 256;
`'q' = 113`, ESC `= 27`. -/
def quitKey (waitKeyRet : ℤ) : Bool :=
  waitKeyRet % 256 = 113 || waitKeyRet % 256 = 27

/-- The environment's answers for one loop iteration: the result of
`cap.read(frame)` (success flag and the frame written), the monotonic-clock
elapsed seconds sampled immediately after the read, and the `waitKey(1)`
return value of that iteration. -/
structure CaptureEvent where
  readOk : Bool
  frame : Frame
  time : ℚ
  waitKeyRet : ℤ
  deriving Repr, DecidableEq

/-- External-world answers for one process run. -/
structure Env where
  gstOpenOk : Bool
  v4l2OpenOk : Bool
  imageScale : ℚ
  events : List CaptureEvent
  deriving Repr, DecidableEq

/-- Observable calls made by `main`, in program order. -/
inductive Ev where
  | usageError
  | openGStreamer (ok : Bool)
  | openV4L2 (ok : Bool)
  | setProp (prop : Nat) (value : ℚ)
  | slamInit (vocPath settingsPath : String)
  | readFail
  | feed (f : Frame) (t : ℚ)
  | showPreview (f : Frame)
  | pollKey (waitKeyRet : ℤ)
  | shutdown
  | saveKeyFrameTrajectory
  deriving Repr, DecidableEq

/-- Lines 85–118: the `while (true)` capture loop.  Each iteration: read (a
failed or empty read prints an error and breaks), stamp, preprocess, feed,
show the original frame, poll the key, break on the quit key.  An exhausted
event list means the next read fails. -/
def loop (forceGray : Bool) (imageScale : ℚ) : List CaptureEvent → List Ev
  | [] => [.readFail]
  | e :: rest =>
    if !e.readOk || e.frame.empty then [.readFail]
    else
      .feed (preprocess forceGray imageScale e.frame) e.time ::
      .showPreview e.frame ::
      .pollKey e.waitKeyRet ::
      (if quitKey e.waitKeyRet then [] else loop forceGray imageScale rest)

/-- Lines 42–48: scan `argv[3..]`, setting `forceGray` on `"--gray"` and
`useGStreamer` on `"--gstreamer"`; anything else is not examined further.
Returns `(forceGray, useGStreamer)`. -/
def parseFlags (extra : List String) : Bool × Bool :=
  extra.foldl
    (fun acc arg =>
      if arg = "--gray" then (true, acc.2)
      else if arg = "--gstreamer" then (acc.1, true)
      else acc)
    (false, false)

/-- The whole of `main` (lines 31–123), as a function from `argv` (program
name included) and the environment to the observable trace and exit code.
`voc_path = argv[1]`, `settings_path = argv[2]`; `(forceGray, useGStreamer) =
parseFlags (argv.drop 3)`.  On the V4L2 path the three `cap.set` requests
(`CAP_PROP_FRAME_WIDTH = 3`, `CAP_PROP_FRAME_HEIGHT = 4`, `CAP_PROP_FPS = 5`)
are recorded; on either path a failed open returns 1 immediately, otherwise
the SLAM system is constructed, the loop runs, and `Shutdown` followed by
`SaveKeyFrameTrajectoryTUM` always follow it, with exit code 0. -/
def main (argv : List String) (env : Env) : List Ev × Nat :=
  if argv.length < 3 then
    ([.usageError], 1)
  else
    if (parseFlags (argv.drop 3)).2 then
      if !env.gstOpenOk then
        ([.openGStreamer false], 1)
      else
        (.openGStreamer true ::
         .slamInit (argv.getD 1 "") (argv.getD 2 "") ::
         (loop (parseFlags (argv.drop 3)).1 env.imageScale env.events ++
          [.shutdown, .saveKeyFrameTrajectory]), 0)
    else
      if !env.v4l2OpenOk then
        ([.openV4L2 false], 1)
      else
        (.openV4L2 true ::
         .setProp 3 640 :: .setProp 4 480 :: .setProp 5 30 ::
         .slamInit (argv.getD 1 "") (argv.getD 2 "") ::
         (loop (parseFlags (argv.drop 3)).1 env.imageScale env.events ++
          [.shutdown, .saveKeyFrameTrajectory]), 0)

/-- Events that the capture loop itself can emit. -/
def Ev.isLoopEv : Ev → Bool
  | .feed _ _ => true
  | .showPreview _ => true
  | .pollKey _ => true
  | .readFail => true
  | _ => false

/-- Is this event a `TrackMonocular` (feed) call? -/
def Ev.isFeed : Ev → Bool
  | .feed _ _ => true
  | _ => false

/-- Is this event a capture-open attempt (either backend)? -/
def Ev.isOpen : Ev → Bool
  | .openGStreamer _ => true
  | .openV4L2 _ => true
  | _ => false

/-- Is this event a V4L2 (direct device) open attempt? -/
def Ev.isV4L2Open : Ev → Bool
  | .openV4L2 _ => true
  | _ => false

/-- Is this event a GStreamer (pipeline description) open attempt? -/
def Ev.isGstOpen : Ev → Bool
  | .openGStreamer _ => true
  | _ => false

/-- Is this event the SLAM system construction? -/
def Ev.isSlamInit : Ev → Bool
  | .slamInit _ _ => true
  | _ => false

/-- The timestamps passed to `TrackMonocular`, in feeding order. -/
def fedTimes : List Ev → List ℚ
  | [] => []
  | .feed _ t :: rest => t :: fedTimes rest
  | _ :: rest => fedTimes rest

/-- The three observable calls of one completed loop iteration. -/
def iterEvents (forceGray : Bool) (imageScale : ℚ) (e : CaptureEvent) : List Ev :=
  [.feed (preprocess forceGray imageScale e.frame) e.time,
   .showPreview e.frame,
   .pollKey e.waitKeyRet]

/-- The trace of a run of iterations that all read successfully and see no
quit key. -/
def goodEvents (forceGray : Bool) (imageScale : ℚ) : List CaptureEvent → List Ev
  | [] => []
  | e :: rest => iterEvents forceGray imageScale e ++ goodEvents forceGray imageScale rest

theorem lround_natCast (w : Nat) : lround (w : ℚ) = w := by
  unfold lround
  rw [if_pos (by positivity)]
  rw [Int.floor_eq_iff]
  constructor
  · push_cast; linarith
  · push_cast; linarith

/-- C2: for every scale factor `s > 0` and frame dimensions, if both rounded
target dimensions are positive the rescaled frame has exactly those
dimensions, and otherwise the frame's dimensions pass through unchanged. -/
theorem rescale_dims (s : ℚ) (hs : 0 < s) (f : Frame) :
    ((0 < lround (f.width * s) ∧ 0 < lround (f.height * s)) →
      (rescale s f).width = (lround (f.width * s)).toNat ∧
      (rescale s f).height = (lround (f.height * s)).toNat) ∧
    (¬ (0 < lround (f.width * s) ∧ 0 < lround (f.height * s)) →
      (rescale s f).width = f.width ∧ (rescale s f).height = f.height) := by
  unfold rescale
  by_cases h1 : s = 1
  · subst h1
    simp only [ne_eq, not_true_eq_false, if_false, mul_one, lround_natCast]
    refine ⟨fun _ => ⟨by simp, by simp⟩, fun _ => ⟨by simp, by simp⟩⟩
  · simp only [ne_eq, h1, not_false_eq_true, if_true]
    constructor
    · rintro ⟨hw, hh⟩
      rw [if_pos ⟨hw, hh⟩]
      exact ⟨rfl, rfl⟩
    · intro h
      rw [if_neg h]
      exact ⟨rfl, rfl⟩

/-- Witness for C2 at `s = 1/2`, a 640×480 frame (Scenario B of the spec). -/
theorem rescale_dims_witness :
    (0 : ℚ) < 1/2 ∧
    (rescale (1/2) ⟨640, 480, 3⟩).width = (lround ((640 : Nat) * (1/2 : ℚ))).toNat ∧
    (rescale (1/2) ⟨640, 480, 3⟩).height = (lround ((480 : Nat) * (1/2 : ℚ))).toNat :=
  ⟨by norm_num,
   (rescale_dims (1/2) (by norm_num) ⟨640, 480, 3⟩).1
     (by norm_num [lround, Int.lt_iff_add_one_le, Int.le_floor])⟩

theorem loop_mem_isLoopEv (fg : Bool) (s : ℚ) (evs : List CaptureEvent) :
    ∀ ev ∈ loop fg s evs, ev.isLoopEv = true := by
  induction evs with
  | nil =>
    intro ev h
    simp only [loop, List.mem_singleton] at h
    subst h; rfl
  | cons e rest ih =>
    intro ev h
    simp only [loop] at h
    by_cases hr : (!e.readOk || e.frame.empty) = true
    · rw [if_pos hr] at h
      simp only [List.mem_singleton] at h
      subst h; rfl
    · rw [if_neg hr] at h
      simp only [List.mem_cons] at h
      rcases h with h | h | h | h
      · subst h; rfl
      · subst h; rfl
      · subst h; rfl
      · by_cases hq : quitKey e.waitKeyRet = true
        · rw [if_pos hq] at h
          simp at h
        · rw [if_neg hq] at h
          exact ih ev h

theorem loop_not_mem (fg : Bool) (s : ℚ) (evs : List CaptureEvent) {ev : Ev}
    (hev : ev.isLoopEv = false) : ev ∉ loop fg s evs := by
  intro h
  rw [loop_mem_isLoopEv fg s evs ev h] at hev
  exact Bool.noConfusion hev

theorem loop_countP_zero (fg : Bool) (s : ℚ) (evs : List CaptureEvent) (p : Ev → Bool)
    (hp : ∀ ev, ev.isLoopEv = true → p ev = false) :
    (loop fg s evs).countP p = 0 :=
  List.countP_eq_zero.mpr fun e he => by
    rw [hp e (loop_mem_isLoopEv fg s evs e he)]
    exact fun hc => Bool.noConfusion hc

theorem main_usage (argv : List String) (env : Env) (h : argv.length < 3) :
    main argv env = ([Ev.usageError], 1) := by
  unfold main
  rw [if_pos h]

theorem main_gst_fail (argv : List String) (env : Env) (h3 : ¬ argv.length < 3)
    (hgs : (parseFlags (argv.drop 3)).2 = true) (hopen : env.gstOpenOk = false) :
    main argv env = ([Ev.openGStreamer false], 1) := by
  unfold main
  rw [if_neg h3]
  simp [hgs, hopen]

theorem main_v4l2_fail (argv : List String) (env : Env) (h3 : ¬ argv.length < 3)
    (hgs : (parseFlags (argv.drop 3)).2 = false) (hopen : env.v4l2OpenOk = false) :
    main argv env = ([Ev.openV4L2 false], 1) := by
  unfold main
  rw [if_neg h3]
  simp [hgs, hopen]

theorem main_open_ok (argv : List String) (env : Env) (h3 : ¬ argv.length < 3)
    (hopen : (if (parseFlags (argv.drop 3)).2 then env.gstOpenOk else env.v4l2OpenOk) = true) :
    main argv env =
      ((if (parseFlags (argv.drop 3)).2 then
          [Ev.openGStreamer true]
        else
          [Ev.openV4L2 true, Ev.setProp 3 640, Ev.setProp 4 480, Ev.setProp 5 30]) ++
       (Ev.slamInit (argv.getD 1 "") (argv.getD 2 "") ::
        (loop (parseFlags (argv.drop 3)).1 env.imageScale env.events ++
         [Ev.shutdown, Ev.saveKeyFrameTrajectory])), 0) := by
  unfold main
  rw [if_neg h3]
  by_cases hgs : (parseFlags (argv.drop 3)).2 = true
  · rw [if_pos hgs] at hopen
    simp [hgs, hopen]
  · rw [if_neg hgs] at hopen
    simp only [Bool.not_eq_true] at hgs
    simp [hgs, hopen]

theorem loop_good_append (fg : Bool) (s : ℚ) (good rest : List CaptureEvent)
    (hgood : ∀ e ∈ good,
      e.readOk = true ∧ e.frame.empty = false ∧ quitKey e.waitKeyRet = false) :
    loop fg s (good ++ rest) = goodEvents fg s good ++ loop fg s rest := by
  induction good with
  | nil => simp [goodEvents]
  | cons e g ih =>
    obtain ⟨h1, h2, h3⟩ := hgood e (List.mem_cons_self e g)
    have ih' := ih fun x hx => hgood x (List.mem_cons_of_mem e hx)
    simp [loop, goodEvents, iterEvents, h1, h2, h3, ih']

theorem loop_bad_head (fg : Bool) (s : ℚ) (bad : CaptureEvent) (rest : List CaptureEvent)
    (hbad : bad.readOk = false ∨ bad.frame.empty = true) :
    loop fg s (bad :: rest) = [Ev.readFail] := by
  have : (!bad.readOk || bad.frame.empty) = true := by
    rcases hbad with h | h <;> simp [h]
  simp [loop, this]

theorem loop_quit_head (fg : Bool) (s : ℚ) (q : CaptureEvent) (rest : List CaptureEvent)
    (h1 : q.readOk = true) (h2 : q.frame.empty = false) (h3 : quitKey q.waitKeyRet = true) :
    loop fg s (q :: rest) = iterEvents fg s q := by
  simp [loop, iterEvents, h1, h2, h3]

theorem goodEvents_mem_isLoopEv (fg : Bool) (s : ℚ) (good : List CaptureEvent) :
    ∀ ev ∈ goodEvents fg s good, ev.isLoopEv = true := by
  induction good with
  | nil => intro ev h; simp [goodEvents] at h
  | cons e g ih =>
    intro ev h
    simp only [goodEvents, iterEvents, List.mem_append, List.mem_cons] at h
    rcases h with (h | h | h | h) | h
    · subst h; rfl
    · subst h; rfl
    · subst h; rfl
    · simp at h
    · exact ih ev h

theorem goodEvents_countP_feed (fg : Bool) (s : ℚ) (good : List CaptureEvent) :
    (goodEvents fg s good).countP Ev.isFeed = good.length := by
  induction good with
  | nil => rfl
  | cons e g ih =>
    show List.countP Ev.isFeed (iterEvents fg s e ++ goodEvents fg s g) = g.length + 1
    rw [List.countP_append, ih]
    have h1 : List.countP Ev.isFeed (iterEvents fg s e) = 1 := by
      simp [iterEvents, List.countP_cons, Ev.isFeed]
    rw [h1]
    omega

theorem fedTimes_append (a b : List Ev) :
    fedTimes (a ++ b) = fedTimes a ++ fedTimes b := by
  induction a with
  | nil => rfl
  | cons e rest ih => cases e <;> simp [fedTimes, ih]

theorem fedTimes_loop_take (fg : Bool) (s : ℚ) (evs : List CaptureEvent) :
    ∃ n, fedTimes (loop fg s evs) = (evs.take n).map CaptureEvent.time := by
  induction evs with
  | nil => exact ⟨0, rfl⟩
  | cons e rest ih =>
    by_cases hr : (!e.readOk || e.frame.empty) = true
    · refine ⟨0, ?_⟩
      simp [loop, hr, fedTimes]
    · by_cases hq : quitKey e.waitKeyRet = true
      · refine ⟨1, ?_⟩
        simp [loop, hr, hq, fedTimes]
      · obtain ⟨n, hn⟩ := ih
        refine ⟨n + 1, ?_⟩
        simp [loop, hr, hq, fedTimes, hn]

theorem loop_feed_mem (fg : Bool) (s : ℚ) (evs : List CaptureEvent) (f : Frame) (t : ℚ)
    (h : Ev.feed f t ∈ loop fg s evs) :
    ∃ e ∈ evs, f = preprocess fg s e.frame ∧ t = e.time := by
  induction evs with
  | nil => simp [loop] at h
  | cons e rest ih =>
    simp only [loop] at h
    by_cases hr : (!e.readOk || e.frame.empty) = true
    · rw [if_pos hr] at h
      simp at h
    · rw [if_neg hr] at h
      simp only [List.mem_cons] at h
      rcases h with h | h | h | h
      · obtain ⟨hf, ht⟩ := Ev.feed.inj h
        exact ⟨e, List.mem_cons_self e rest, hf, ht⟩
      · exact absurd h (by simp)
      · exact absurd h (by simp)
      · by_cases hq : quitKey e.waitKeyRet = true
        · rw [if_pos hq] at h
          simp at h
        · rw [if_neg hq] at h
          obtain ⟨e', he', hf, ht⟩ := ih h
          exact ⟨e', List.mem_cons_of_mem e he', hf, ht⟩

theorem rescale_channels (s : ℚ) (f : Frame) : (rescale s f).channels = f.channels := by
  unfold rescale
  by_cases h1 : s ≠ 1
  · rw [if_pos h1]
    by_cases h2 : 0 < lround (f.width * s) ∧ 0 < lround (f.height * s)
    · rw [if_pos h2]
    · rw [if_neg h2]
  · rw [if_neg h1]

theorem preprocess_channels_gray (s : ℚ) (f : Frame) :
    (preprocess true s f).channels = 1 := by
  unfold preprocess
  rw [if_pos rfl, rescale_channels]
  rfl

theorem preprocess_channels_id (s : ℚ) (f : Frame) :
    (preprocess false s f).channels = f.channels := by
  unfold preprocess
  rw [rescale_channels]
  rfl

theorem main_feed_mem (argv : List String) (env : Env) (f : Frame) (t : ℚ)
    (h : Ev.feed f t ∈ (main argv env).1) :
    Ev.feed f t ∈ loop (parseFlags (argv.drop 3)).1 env.imageScale env.events := by
  by_cases h3 : argv.length < 3
  · rw [main_usage argv env h3] at h
    simp at h
  · by_cases hopen :
      (if (parseFlags (argv.drop 3)).2 then env.gstOpenOk else env.v4l2OpenOk) = true
    · rw [main_open_ok argv env h3 hopen] at h
      simp only [List.mem_append, List.mem_cons] at h
      rcases h with h | h | h | h | h | h
      · by_cases hgs : (parseFlags (argv.drop 3)).2 = true
        · rw [if_pos hgs] at h
          simp at h
        · rw [if_neg hgs] at h
          simp at h
      · exact absurd h (by simp)
      · exact h
      · exact absurd h (by simp)
      · exact absurd h (by simp)
      · simp at h
    · by_cases hgs : (parseFlags (argv.drop 3)).2 = true
      · rw [if_pos hgs] at hopen
        simp only [Bool.not_eq_true] at hopen
        rw [main_gst_fail argv env h3 hgs hopen] at h
        simp at h
      · rw [if_neg hgs] at hopen
        simp only [Bool.not_eq_true] at hopen hgs
        rw [main_v4l2_fail argv env h3 hgs hopen] at h
        simp at h

theorem parseFlags_ignores (a b : List String) (x : String)
    (hx1 : x ≠ "--gray") (hx2 : x ≠ "--gstreamer") :
    parseFlags (a ++ x :: b) = parseFlags (a ++ b) := by
  unfold parseFlags
  rw [List.foldl_append, List.foldl_append]
  simp only [List.foldl_cons]
  rw [if_neg hx1, if_neg hx2]

theorem once_of_shape (t l : List Ev)
    (ht : t = l ++ [Ev.shutdown, Ev.saveKeyFrameTrajectory])
    (h1 : Ev.shutdown ∉ l) (h2 : Ev.saveKeyFrameTrajectory ∉ l) :
    t.count Ev.shutdown = 1 ∧ t.count Ev.saveKeyFrameTrajectory = 1 := by
  subst ht
  rw [List.count_append, List.count_append]
  rw [List.count_eq_zero.mpr h1, List.count_eq_zero.mpr h2]
  constructor <;> rfl

/-- C1: in every run that enters the capture loop — the positional arguments
are present and the selected backend's open succeeded — the shutdown and the
keyframe-trajectory export each occur exactly once in the trace, with the
shutdown strictly before the export, whichever way the loop exited (quit key,
failed or empty read, or end of stream). -/
theorem shutdown_then_export_once (argv : List String) (env : Env)
    (hargs : 3 ≤ argv.length)
    (hopen : (if (parseFlags (argv.drop 3)).2 then env.gstOpenOk else env.v4l2OpenOk) = true) :
    ∃ l, (main argv env).1 = l ++ [Ev.shutdown, Ev.saveKeyFrameTrajectory] ∧
      Ev.shutdown ∉ l ∧ Ev.saveKeyFrameTrajectory ∉ l ∧
      (main argv env).1.count Ev.shutdown = 1 ∧
      (main argv env).1.count Ev.saveKeyFrameTrajectory = 1 := by
  have h3 : ¬ argv.length < 3 := by omega
  rw [main_open_ok argv env h3 hopen]
  have hpre1 : Ev.shutdown ∉ (if (parseFlags (argv.drop 3)).2 then [Ev.openGStreamer true]
      else [Ev.openV4L2 true, Ev.setProp 3 640, Ev.setProp 4 480, Ev.setProp 5 30]) := by
    by_cases hgs : (parseFlags (argv.drop 3)).2 = true
    · rw [if_pos hgs]; decide
    · rw [if_neg hgs]; decide
  have hpre2 : Ev.saveKeyFrameTrajectory ∉
      (if (parseFlags (argv.drop 3)).2 then [Ev.openGStreamer true]
      else [Ev.openV4L2 true, Ev.setProp 3 640, Ev.setProp 4 480, Ev.setProp 5 30]) := by
    by_cases hgs : (parseFlags (argv.drop 3)).2 = true
    · rw [if_pos hgs]; decide
    · rw [if_neg hgs]; decide
  have hl1 : Ev.shutdown ∉
      ((if (parseFlags (argv.drop 3)).2 then [Ev.openGStreamer true]
        else [Ev.openV4L2 true, Ev.setProp 3 640, Ev.setProp 4 480, Ev.setProp 5 30]) ++
       (Ev.slamInit (argv.getD 1 "") (argv.getD 2 "") ::
        loop (parseFlags (argv.drop 3)).1 env.imageScale env.events)) := by
    simp only [List.mem_append, List.mem_cons, not_or]
    exact ⟨hpre1, by simp, loop_not_mem _ _ _ rfl⟩
  have hl2 : Ev.saveKeyFrameTrajectory ∉
      ((if (parseFlags (argv.drop 3)).2 then [Ev.openGStreamer true]
        else [Ev.openV4L2 true, Ev.setProp 3 640, Ev.setProp 4 480, Ev.setProp 5 30]) ++
       (Ev.slamInit (argv.getD 1 "") (argv.getD 2 "") ::
        loop (parseFlags (argv.drop 3)).1 env.imageScale env.events)) := by
    simp only [List.mem_append, List.mem_cons, not_or]
    exact ⟨hpre2, by simp, loop_not_mem _ _ _ rfl⟩
  have hshape :
      ((if (parseFlags (argv.drop 3)).2 then [Ev.openGStreamer true]
        else [Ev.openV4L2 true, Ev.setProp 3 640, Ev.setProp 4 480, Ev.setProp 5 30]) ++
       (Ev.slamInit (argv.getD 1 "") (argv.getD 2 "") ::
        (loop (parseFlags (argv.drop 3)).1 env.imageScale env.events ++
         [Ev.shutdown, Ev.saveKeyFrameTrajectory]))) =
      ((if (parseFlags (argv.drop 3)).2 then [Ev.openGStreamer true]
        else [Ev.openV4L2 true, Ev.setProp 3 640, Ev.setProp 4 480, Ev.setProp 5 30]) ++
       (Ev.slamInit (argv.getD 1 "") (argv.getD 2 "") ::
        loop (parseFlags (argv.drop 3)).1 env.imageScale env.events)) ++
      [Ev.shutdown, Ev.saveKeyFrameTrajectory] := by
    simp
  exact ⟨_, hshape, hl1, hl2,
    (once_of_shape _ _ hshape hl1 hl2).1, (once_of_shape _ _ hshape hl1 hl2).2⟩

/-- C3: given that the monotonic clock's samples are non-decreasing across
the run, every pair of consecutive timestamps fed to `TrackMonocular`
satisfies `timestamp(n) ≤ timestamp(n+1)`. -/
theorem timestamps_monotone (argv : List String) (env : Env)
    (hclock : List.Chain' (· ≤ ·) (env.events.map CaptureEvent.time)) :
    List.Chain' (· ≤ ·) (fedTimes (main argv env).1) := by
  by_cases h3 : argv.length < 3
  · rw [main_usage argv env h3]
    exact List.chain'_nil
  · by_cases hopen :
      (if (parseFlags (argv.drop 3)).2 then env.gstOpenOk else env.v4l2OpenOk) = true
    · rw [main_open_ok argv env h3 hopen]
      dsimp only
      have hpre : fedTimes (if (parseFlags (argv.drop 3)).2 then [Ev.openGStreamer true]
          else [Ev.openV4L2 true, Ev.setProp 3 640, Ev.setProp 4 480, Ev.setProp 5 30]) = [] := by
        by_cases hgs : (parseFlags (argv.drop 3)).2 = true
        · rw [if_pos hgs]
          rfl
        · rw [if_neg hgs]
          rfl
      rw [fedTimes_append, hpre, List.nil_append]
      have hsi : fedTimes (Ev.slamInit (argv.getD 1 "") (argv.getD 2 "") ::
          (loop (parseFlags (argv.drop 3)).1 env.imageScale env.events ++
           [Ev.shutdown, Ev.saveKeyFrameTrajectory])) =
          fedTimes (loop (parseFlags (argv.drop 3)).1 env.imageScale env.events ++
           [Ev.shutdown, Ev.saveKeyFrameTrajectory]) := rfl
      rw [hsi, fedTimes_append]
      have hT : fedTimes [Ev.shutdown, Ev.saveKeyFrameTrajectory] = [] := rfl
      rw [hT, List.append_nil]
      obtain ⟨n, hn⟩ :=
        fedTimes_loop_take (parseFlags (argv.drop 3)).1 env.imageScale env.events
      rw [hn, List.map_take]
      exact hclock.take n
    · by_cases hgs : (parseFlags (argv.drop 3)).2 = true
      · rw [if_pos hgs] at hopen
        simp only [Bool.not_eq_true] at hopen
        rw [main_gst_fail argv env h3 hgs hopen]
        exact List.chain'_nil
      · simp only [Bool.not_eq_true] at hgs
        rw [if_neg (by simp [hgs])] at hopen
        simp only [Bool.not_eq_true] at hopen
        rw [main_v4l2_fail argv env h3 hgs hopen]
        exact List.chain'_nil

/-- C4: backend selection is exclusive.  If the `--gstreamer` flag is set no
V4L2 open is ever attempted, if it is not set no GStreamer open is ever
attempted, and at most one open attempt appears in any trace (a failed open
never triggers the other backend). -/
theorem backend_exclusive (argv : List String) (env : Env) :
    (main argv env).1.countP Ev.isOpen ≤ 1 ∧
    ((parseFlags (argv.drop 3)).2 = true →
      (main argv env).1.countP Ev.isV4L2Open = 0) ∧
    ((parseFlags (argv.drop 3)).2 = false →
      (main argv env).1.countP Ev.isGstOpen = 0) := by
  by_cases h3 : argv.length < 3
  · rw [main_usage argv env h3]
    exact ⟨by decide, fun _ => by decide, fun _ => by decide⟩
  · by_cases hopen :
      (if (parseFlags (argv.drop 3)).2 then env.gstOpenOk else env.v4l2OpenOk) = true
    · rw [main_open_ok argv env h3 hopen]
      dsimp only
      have hlOpen :
          (loop (parseFlags (argv.drop 3)).1 env.imageScale env.events).countP Ev.isOpen = 0 :=
        loop_countP_zero _ _ _ _ (by
          intro ev hev
          cases ev <;> simp_all [Ev.isLoopEv, Ev.isOpen])
      have hlV :
          (loop (parseFlags (argv.drop 3)).1 env.imageScale env.events).countP Ev.isV4L2Open = 0 :=
        loop_countP_zero _ _ _ _ (by
          intro ev hev
          cases ev <;> simp_all [Ev.isLoopEv, Ev.isV4L2Open])
      have hlG :
          (loop (parseFlags (argv.drop 3)).1 env.imageScale env.events).countP Ev.isGstOpen = 0 :=
        loop_countP_zero _ _ _ _ (by
          intro ev hev
          cases ev <;> simp_all [Ev.isLoopEv, Ev.isGstOpen])
      by_cases hgs : (parseFlags (argv.drop 3)).2 = true
      · rw [if_pos hgs]
        refine ⟨?_, fun _ => ?_, fun hf => ?_⟩
        · simp [List.countP_append, List.countP_cons, hlOpen, Ev.isOpen]
        · simp [List.countP_append, List.countP_cons, hlV, Ev.isV4L2Open]
        · rw [hgs] at hf
          exact Bool.noConfusion hf
      · simp only [Bool.not_eq_true] at hgs
        rw [if_neg (by simp [hgs])]
        refine ⟨?_, fun hf => ?_, fun _ => ?_⟩
        · simp [List.countP_append, List.countP_cons, hlOpen, Ev.isOpen]
        · rw [hgs] at hf
          exact Bool.noConfusion hf
        · simp [List.countP_append, List.countP_cons, hlG, Ev.isGstOpen]
    · by_cases hgs : (parseFlags (argv.drop 3)).2 = true
      · rw [if_pos hgs] at hopen
        simp only [Bool.not_eq_true] at hopen
        rw [main_gst_fail argv env h3 hgs hopen]
        refine ⟨by decide, fun _ => by decide, fun hf => ?_⟩
        rw [hgs] at hf
        exact Bool.noConfusion hf
      · simp only [Bool.not_eq_true] at hgs
        rw [if_neg (by simp [hgs])] at hopen
        simp only [Bool.not_eq_true] at hopen
        rw [main_v4l2_fail argv env h3 hgs hopen]
        refine ⟨by decide, fun hf => ?_, fun _ => by decide⟩
        rw [hgs] at hf
        exact Bool.noConfusion hf

/-- C5: a missing positional argument makes the process exit with code 1, and
a failed open of the selected backend makes it exit with code 1 without the
SLAM system ever being constructed or shut down. -/
theorem failure_paths_exit_one (argv : List String) (env : Env) :
    (argv.length < 3 → (main argv env).2 = 1) ∧
    (3 ≤ argv.length →
      (if (parseFlags (argv.drop 3)).2 then env.gstOpenOk else env.v4l2OpenOk) = false →
      (main argv env).2 = 1 ∧
      (main argv env).1.countP Ev.isSlamInit = 0 ∧
      (main argv env).1.count Ev.shutdown = 0) := by
  constructor
  · intro h
    rw [main_usage argv env h]
  · intro hargs hopen
    have h3 : ¬ argv.length < 3 := by omega
    by_cases hgs : (parseFlags (argv.drop 3)).2 = true
    · rw [if_pos hgs] at hopen
      rw [main_gst_fail argv env h3 hgs hopen]
      exact ⟨rfl, by decide, by decide⟩
    · simp only [Bool.not_eq_true] at hgs
      rw [if_neg (by simp [hgs])] at hopen
      rw [main_v4l2_fail argv env h3 hgs hopen]
      exact ⟨rfl, by decide, by decide⟩

/-- C6: a mid-stream read failure or empty frame is non-fatal: exactly the
frames before it are fed, the loop stops at the failing read and goes
straight to shutdown-then-export, and the process exits with code 0. -/
theorem midstream_failure_graceful (argv : List String) (env : Env)
    (good : List CaptureEvent) (bad : CaptureEvent) (rest : List CaptureEvent)
    (hargs : 3 ≤ argv.length)
    (hopen : (if (parseFlags (argv.drop 3)).2 then env.gstOpenOk else env.v4l2OpenOk) = true)
    (hevents : env.events = good ++ bad :: rest)
    (hgood : ∀ e ∈ good,
      e.readOk = true ∧ e.frame.empty = false ∧ quitKey e.waitKeyRet = false)
    (hbad : bad.readOk = false ∨ bad.frame.empty = true) :
    (main argv env).2 = 0 ∧
    (main argv env).1.countP Ev.isFeed = good.length ∧
    ∃ l, (main argv env).1 = l ++ [Ev.readFail, Ev.shutdown, Ev.saveKeyFrameTrajectory] := by
  have h3 : ¬ argv.length < 3 := by omega
  have hloop : loop (parseFlags (argv.drop 3)).1 env.imageScale env.events =
      goodEvents (parseFlags (argv.drop 3)).1 env.imageScale good ++ [Ev.readFail] := by
    rw [hevents, loop_good_append _ _ _ _ hgood, loop_bad_head _ _ _ _ hbad]
  have hpre : (if (parseFlags (argv.drop 3)).2 then [Ev.openGStreamer true]
      else [Ev.openV4L2 true, Ev.setProp 3 640, Ev.setProp 4 480,
        Ev.setProp 5 30]).countP Ev.isFeed = 0 := by
    by_cases hgs : (parseFlags (argv.drop 3)).2 = true
    · rw [if_pos hgs]; decide
    · rw [if_neg hgs]; decide
  rw [main_open_ok argv env h3 hopen]
  dsimp only
  rw [hloop]
  refine ⟨rfl, ?_, ?_⟩
  · simp [List.countP_append, List.countP_cons, hpre, goodEvents_countP_feed, Ev.isFeed]
  · refine ⟨(if (parseFlags (argv.drop 3)).2 then [Ev.openGStreamer true]
      else [Ev.openV4L2 true, Ev.setProp 3 640, Ev.setProp 4 480, Ev.setProp 5 30]) ++
      (Ev.slamInit (argv.getD 1 "") (argv.getD 2 "") ::
       goodEvents (parseFlags (argv.drop 3)).1 env.imageScale good), ?_⟩
    simp

/-- C7: with the grayscale flag every frame fed to the tracking session has
exactly one channel; without it every fed frame keeps the channel count of
the captured frame it was preprocessed from. -/
theorem grayscale_channels (argv : List String) (env : Env) :
    ((parseFlags (argv.drop 3)).1 = true →
      ∀ f t, Ev.feed f t ∈ (main argv env).1 → f.channels = 1) ∧
    ((parseFlags (argv.drop 3)).1 = false →
      ∀ f t, Ev.feed f t ∈ (main argv env).1 →
        ∃ e ∈ env.events, f = preprocess false env.imageScale e.frame ∧
          f.channels = e.frame.channels) := by
  constructor
  · intro hg f t hmem
    have h := main_feed_mem argv env f t hmem
    rw [hg] at h
    obtain ⟨e, _, hf, _⟩ := loop_feed_mem _ _ _ _ _ h
    rw [hf, preprocess_channels_gray]
  · intro hg f t hmem
    have h := main_feed_mem argv env f t hmem
    rw [hg] at h
    obtain ⟨e, he, hf, _⟩ := loop_feed_mem _ _ _ _ _ h
    exact ⟨e, he, hf, by rw [hf, preprocess_channels_id]⟩

/-- C9: when the run ends through the quit key, the frame read in that final
iteration has already been preprocessed and fed — every one of the
`good.length + 1` successfully read frames was fed, the final frame's feed is
in the trace, and the process exits 0. -/
theorem cancel_feeds_current_frame (argv : List String) (env : Env)
    (good : List CaptureEvent) (q : CaptureEvent) (rest : List CaptureEvent)
    (hargs : 3 ≤ argv.length)
    (hopen : (if (parseFlags (argv.drop 3)).2 then env.gstOpenOk else env.v4l2OpenOk) = true)
    (hevents : env.events = good ++ q :: rest)
    (hgood : ∀ e ∈ good,
      e.readOk = true ∧ e.frame.empty = false ∧ quitKey e.waitKeyRet = false)
    (hq1 : q.readOk = true) (hq2 : q.frame.empty = false)
    (hq3 : quitKey q.waitKeyRet = true) :
    (main argv env).1.countP Ev.isFeed = good.length + 1 ∧
    Ev.feed (preprocess (parseFlags (argv.drop 3)).1 env.imageScale q.frame) q.time ∈
      (main argv env).1 ∧
    (main argv env).2 = 0 := by
  have h3 : ¬ argv.length < 3 := by omega
  have hloop : loop (parseFlags (argv.drop 3)).1 env.imageScale env.events =
      goodEvents (parseFlags (argv.drop 3)).1 env.imageScale good ++
        iterEvents (parseFlags (argv.drop 3)).1 env.imageScale q := by
    rw [hevents, loop_good_append _ _ _ _ hgood, loop_quit_head _ _ _ _ hq1 hq2 hq3]
  have hpre : (if (parseFlags (argv.drop 3)).2 then [Ev.openGStreamer true]
      else [Ev.openV4L2 true, Ev.setProp 3 640, Ev.setProp 4 480,
        Ev.setProp 5 30]).countP Ev.isFeed = 0 := by
    by_cases hgs : (parseFlags (argv.drop 3)).2 = true
    · rw [if_pos hgs]; decide
    · rw [if_neg hgs]; decide
  rw [main_open_ok argv env h3 hopen]
  dsimp only
  rw [hloop]
  refine ⟨?_, ?_, rfl⟩
  · simp [List.countP_append, List.countP_cons, hpre, goodEvents_countP_feed,
      Ev.isFeed, iterEvents]
  · simp [iterEvents, List.mem_append, List.mem_cons]

/-- C10: an argument after the two positional paths that is neither
`"--gray"` nor `"--gstreamer"` changes nothing: the whole run (trace and
exit code) is the same as without it. -/
theorem unknown_args_ignored (pre post : List String) (x : String) (env : Env)
    (hlen : 3 ≤ pre.length) (hx1 : x ≠ "--gray") (hx2 : x ≠ "--gstreamer") :
    main (pre ++ x :: post) env = main (pre ++ post) env := by
  have h0 : 3 - pre.length = 0 := by omega
  have hdrop1 : (pre ++ x :: post).drop 3 = pre.drop 3 ++ x :: post := by
    rw [List.drop_append_eq_append_drop, h0, List.drop_zero]
  have hdrop2 : (pre ++ post).drop 3 = pre.drop 3 ++ post := by
    rw [List.drop_append_eq_append_drop, h0, List.drop_zero]
  have hflags : parseFlags ((pre ++ x :: post).drop 3) = parseFlags ((pre ++ post).drop 3) := by
    rw [hdrop1, hdrop2]
    exact parseFlags_ignores _ _ _ hx1 hx2
  have hget1 : (pre ++ x :: post).getD 1 "" = (pre ++ post).getD 1 "" := by
    rw [List.getD_append _ _ _ 1 (by omega), List.getD_append _ _ _ 1 (by omega)]
  have hget2 : (pre ++ x :: post).getD 2 "" = (pre ++ post).getD 2 "" := by
    rw [List.getD_append _ _ _ 2 (by omega), List.getD_append _ _ _ 2 (by omega)]
  have hlen1 : ¬ (pre ++ x :: post).length < 3 := by
    simp only [List.length_append, List.length_cons]
    omega
  have hlen2 : ¬ (pre ++ post).length < 3 := by
    simp only [List.length_append]
    omega
  unfold main
  rw [if_neg hlen1, if_neg hlen2, hflags, hget1, hget2]

/-- Witness for C1: a run with arguments present, the V4L2 open succeeding
and an immediate end of stream still shuts down once and exports once. -/
theorem shutdown_then_export_once_witness :
    (main ["app", "voc", "set"] ⟨false, true, 1, []⟩).1.count Ev.shutdown = 1 ∧
    (main ["app", "voc", "set"] ⟨false, true, 1, []⟩).1.count Ev.saveKeyFrameTrajectory = 1 := by
  obtain ⟨l, _, _, _, h3, h4⟩ :=
    shutdown_then_export_once ["app", "voc", "set"] ⟨false, true, 1, []⟩
      (by decide) (by decide)
  exact ⟨h3, h4⟩

/-- Witness for C3 on a two-frame run with clock samples 1 and 2. -/
theorem timestamps_monotone_witness :
    List.Chain' (· ≤ ·) (fedTimes (main ["app", "voc", "set"]
      ⟨false, true, 1, [⟨true, ⟨640, 480, 3⟩, 1, -1⟩, ⟨true, ⟨640, 480, 3⟩, 2, -1⟩]⟩).1) :=
  timestamps_monotone ["app", "voc", "set"]
    ⟨false, true, 1, [⟨true, ⟨640, 480, 3⟩, 1, -1⟩, ⟨true, ⟨640, 480, 3⟩, 2, -1⟩]⟩
    (by norm_num [List.chain'_cons])

/-- Witness for C4: with `--gstreamer` set the trace holds no V4L2 open. -/
theorem backend_exclusive_witness :
    (main ["app", "voc", "set", "--gstreamer"] ⟨true, true, 1, []⟩).1.countP Ev.isV4L2Open = 0 :=
  (backend_exclusive ["app", "voc", "set", "--gstreamer"] ⟨true, true, 1, []⟩).2.1 (by decide)

/-- Witness for C5: with the V4L2 open failing, the run exits 1 and the SLAM
system is neither constructed nor shut down. -/
theorem failure_paths_exit_one_witness :
    (main ["app", "voc", "set"] ⟨true, false, 1, []⟩).2 = 1 ∧
    (main ["app", "voc", "set"] ⟨true, false, 1, []⟩).1.countP Ev.isSlamInit = 0 ∧
    (main ["app", "voc", "set"] ⟨true, false, 1, []⟩).1.count Ev.shutdown = 0 :=
  (failure_paths_exit_one ["app", "voc", "set"] ⟨true, false, 1, []⟩).2
    (by decide) (by decide)

/-- Witness for C6, Scenario C of the spec: the 5th of 10 expected reads
fails, so exactly 4 frames are fed and the run exits 0. -/
theorem midstream_failure_graceful_witness :
    (main ["app", "voc", "set"]
      ⟨false, true, 1,
        [⟨true, ⟨640, 480, 3⟩, 1, -1⟩, ⟨true, ⟨640, 480, 3⟩, 2, -1⟩,
         ⟨true, ⟨640, 480, 3⟩, 3, -1⟩, ⟨true, ⟨640, 480, 3⟩, 4, -1⟩,
         ⟨false, ⟨640, 480, 3⟩, 5, -1⟩, ⟨true, ⟨640, 480, 3⟩, 6, -1⟩,
         ⟨true, ⟨640, 480, 3⟩, 7, -1⟩, ⟨true, ⟨640, 480, 3⟩, 8, -1⟩,
         ⟨true, ⟨640, 480, 3⟩, 9, -1⟩, ⟨true, ⟨640, 480, 3⟩, 10, -1⟩]⟩).2 = 0 ∧
    (main ["app", "voc", "set"]
      ⟨false, true, 1,
        [⟨true, ⟨640, 480, 3⟩, 1, -1⟩, ⟨true, ⟨640, 480, 3⟩, 2, -1⟩,
         ⟨true, ⟨640, 480, 3⟩, 3, -1⟩, ⟨true, ⟨640, 480, 3⟩, 4, -1⟩,
         ⟨false, ⟨640, 480, 3⟩, 5, -1⟩, ⟨true, ⟨640, 480, 3⟩, 6, -1⟩,
         ⟨true, ⟨640, 480, 3⟩, 7, -1⟩, ⟨true, ⟨640, 480, 3⟩, 8, -1⟩,
         ⟨true, ⟨640, 480, 3⟩, 9, -1⟩, ⟨true, ⟨640, 480, 3⟩, 10, -1⟩]⟩).1.countP Ev.isFeed = 4 := by
  obtain ⟨h0, hc, _⟩ :=
    midstream_failure_graceful ["app", "voc", "set"]
      ⟨false, true, 1,
        [⟨true, ⟨640, 480, 3⟩, 1, -1⟩, ⟨true, ⟨640, 480, 3⟩, 2, -1⟩,
         ⟨true, ⟨640, 480, 3⟩, 3, -1⟩, ⟨true, ⟨640, 480, 3⟩, 4, -1⟩,
         ⟨false, ⟨640, 480, 3⟩, 5, -1⟩, ⟨true, ⟨640, 480, 3⟩, 6, -1⟩,
         ⟨true, ⟨640, 480, 3⟩, 7, -1⟩, ⟨true, ⟨640, 480, 3⟩, 8, -1⟩,
         ⟨true, ⟨640, 480, 3⟩, 9, -1⟩, ⟨true, ⟨640, 480, 3⟩, 10, -1⟩]⟩
      [⟨true, ⟨640, 480, 3⟩, 1, -1⟩, ⟨true, ⟨640, 480, 3⟩, 2, -1⟩,
       ⟨true, ⟨640, 480, 3⟩, 3, -1⟩, ⟨true, ⟨640, 480, 3⟩, 4, -1⟩]
      ⟨false, ⟨640, 480, 3⟩, 5, -1⟩
      [⟨true, ⟨640, 480, 3⟩, 6, -1⟩, ⟨true, ⟨640, 480, 3⟩, 7, -1⟩,
       ⟨true, ⟨640, 480, 3⟩, 8, -1⟩, ⟨true, ⟨640, 480, 3⟩, 9, -1⟩,
       ⟨true, ⟨640, 480, 3⟩, 10, -1⟩]
      (by decide) (by decide) rfl (by decide) (by decide)
  exact ⟨h0, hc⟩

/-- Witness for C7: with `--gray` the one fed frame has one channel. -/
theorem grayscale_channels_witness :
    Ev.feed ⟨640, 480, 1⟩ 1 ∈
      (main ["app", "voc", "set", "--gray"] ⟨false, true, 1, [⟨true, ⟨640, 480, 3⟩, 1, -1⟩]⟩).1 ∧
    Frame.channels ⟨640, 480, 1⟩ = 1 := by
  have hmem : Ev.feed ⟨640, 480, 1⟩ 1 ∈
      (main ["app", "voc", "set", "--gray"] ⟨false, true, 1, [⟨true, ⟨640, 480, 3⟩, 1, -1⟩]⟩).1 := by
    rw [show (main ["app", "voc", "set", "--gray"]
        ⟨false, true, 1, [⟨true, ⟨640, 480, 3⟩, 1, -1⟩]⟩).1 =
      [Ev.openV4L2 true, Ev.setProp 3 640, Ev.setProp 4 480, Ev.setProp 5 30,
       Ev.slamInit "voc" "set", Ev.feed ⟨640, 480, 1⟩ 1, Ev.showPreview ⟨640, 480, 3⟩,
       Ev.pollKey (-1), Ev.readFail, Ev.shutdown, Ev.saveKeyFrameTrajectory] from rfl]
    simp
  exact ⟨hmem,
    (grayscale_channels ["app", "voc", "set", "--gray"]
      ⟨false, true, 1, [⟨true, ⟨640, 480, 3⟩, 1, -1⟩]⟩).1 (by decide) ⟨640, 480, 1⟩ 1 hmem⟩

/-- Witness for C9: quit key pressed at the second frame — both read frames
were fed, the second frame's feed is in the trace, exit code 0. -/
theorem cancel_feeds_current_frame_witness :
    (main ["app", "voc", "set"]
      ⟨false, true, 1,
        [⟨true, ⟨640, 480, 3⟩, 1, -1⟩, ⟨true, ⟨640, 480, 3⟩, 2, 113⟩,
         ⟨true, ⟨640, 480, 3⟩, 3, -1⟩]⟩).1.countP Ev.isFeed = 2 ∧
    Ev.feed ⟨640, 480, 3⟩ 2 ∈
      (main ["app", "voc", "set"]
        ⟨false, true, 1,
          [⟨true, ⟨640, 480, 3⟩, 1, -1⟩, ⟨true, ⟨640, 480, 3⟩, 2, 113⟩,
           ⟨true, ⟨640, 480, 3⟩, 3, -1⟩]⟩).1 ∧
    (main ["app", "voc", "set"]
      ⟨false, true, 1,
        [⟨true, ⟨640, 480, 3⟩, 1, -1⟩, ⟨true, ⟨640, 480, 3⟩, 2, 113⟩,
         ⟨true, ⟨640, 480, 3⟩, 3, -1⟩]⟩).2 = 0 :=
  cancel_feeds_current_frame ["app", "voc", "set"]
    ⟨false, true, 1,
      [⟨true, ⟨640, 480, 3⟩, 1, -1⟩, ⟨true, ⟨640, 480, 3⟩, 2, 113⟩,
       ⟨true, ⟨640, 480, 3⟩, 3, -1⟩]⟩
    [⟨true, ⟨640, 480, 3⟩, 1, -1⟩] ⟨true, ⟨640, 480, 3⟩, 2, 113⟩ [⟨true, ⟨640, 480, 3⟩, 3, -1⟩]
    (by decide) (by decide) rfl (by decide) (by decide) (by decide) (by decide)

/-- Witness for C10: an unknown argument `"--bogus"` after the two paths
leaves the whole run unchanged. -/
theorem unknown_args_ignored_witness :
    main (["app", "voc", "set"] ++ "--bogus" :: ["--gray"]) ⟨false, true, 1, []⟩ =
      main (["app", "voc", "set"] ++ ["--gray"]) ⟨false, true, 1, []⟩ :=
  unknown_args_ignored ["app", "voc", "set"] ["--gray"] "--bogus" ⟨false, true, 1, []⟩
    (by decide) (by decide) (by decide)

end MonoLive
